import Mathlib

/-!
Shallow embedding of `src/collector/collector.py` (the job-collector batch
pipeline): configuration resolution, the per-term aggregation loop, the
pre-flight output-file guard, and the CSV writer call, together with
theorems settling the specification claims about them.

Conventions of the embedding:
* The process environment is a function `String → Option String`
  (`os.getenv k` is `env k`; `os.environ[k]` raising `KeyError` when the
  variable is unset is an `Except.error PyErr.keyError`).
* Parsed command-line flags (`argparse`) are the `Flags` structure; a flag
  the user did not pass is `none` (`store_true` flags default to `false`).
* Python truthiness on strings (`a or b`) is: `None` and `""` are falsy;
  on integers, `None` and `0` are falsy.  The helpers `pyOrS` and
  `pyOrIntEnv` mirror the `x or y` resolution idiom of the source.
* Python's `str.split(",")`, `str.strip()`, `str.lower()` and `int(...)`
  are re-implemented structurally on `List Char` (`pySplitComma`,
  `pyStrip`, `pyLower`, `pyInt?`) so the kernel can evaluate them.
  `pyLower`/`pyInt?` cover the ASCII inputs the program and the claims
  use; CPython's non-ASCII case folding, underscore digit grouping and
  non-ASCII digits are not modelled (no claim depends on them).
* The external job-search provider (`jobspy.scrape_jobs`) is a parameter
  `provider : String → Except ε (List ρ)` keyed by the search term — the
  only argument that varies across loop iterations; a raised exception is
  `Except.error`.  Rows are opaque (`ρ`), per the spec's JobRecordBatch.
* The filesystem existence check (`os.path.exists`) is a parameter
  `fileExists : String → Bool`; success or failure of the final
  `to_csv` call is a parameter `writeOk : Bool`.
-/

namespace Collector

/-- Python `str.strip()` default whitespace set (ASCII part). -/
def pyIsSpace (c : Char) : Bool :=
  c = ' ' || c = '\t' || c = '\n' || c = '\r' || c = '\x0b' || c = '\x0c'

/-- Strip leading and trailing whitespace from a character list. -/
def stripList (l : List Char) : List Char :=
  ((l.dropWhile pyIsSpace).reverse.dropWhile pyIsSpace).reverse

/-- Python `s.strip()`. -/
def pyStrip (s : String) : String := ⟨stripList s.data⟩

/-- ASCII lower-casing of one character (Python `str.lower()` on the
inputs used by this program). -/
def pyLowerChar (c : Char) : Char :=
  if 'A' ≤ c ∧ c ≤ 'Z' then Char.ofNat (c.toNat + 32) else c

/-- Python `s.lower()` (ASCII). -/
def pyLower (s : String) : String := ⟨s.data.map pyLowerChar⟩

/-- Split a character list at every comma, like Python `s.split(",")`:
adjacent separators and boundary separators produce empty fields. -/
def splitCommaAux : List Char → List Char → List (List Char)
  | [], cur => [cur.reverse]
  | c :: cs, cur =>
    if c = ',' then cur.reverse :: splitCommaAux cs [] else splitCommaAux cs (c :: cur)

/-- Python `s.split(",")`. -/
def pySplitComma (s : String) : List String :=
  (splitCommaAux s.data []).map (fun l => ⟨l⟩)

/-- Accumulate ASCII decimal digits, failing on a non-digit. -/
def decDigitsAux : List Char → ℕ → Option ℕ
  | [], acc => some acc
  | c :: cs, acc =>
    if c.isDigit then decDigitsAux cs (acc * 10 + (c.toNat - 48)) else none

/-- A non-empty all-digit character list as a natural number. -/
def decNat? : List Char → Option ℕ
  | [] => none
  | cs => decDigitsAux cs 0

/-- CPython `int(s)` on ASCII decimal literals with optional surrounding
whitespace and an optional sign; `none` models the `ValueError` CPython
raises on anything else (underscore grouping and non-ASCII digits are not
modelled — no claim depends on them). -/
def pyInt? (s : String) : Option Int :=
  match stripList s.data with
  | '-' :: cs => (decNat? cs).map (fun n => -(n : Int))
  | '+' :: cs => (decNat? cs).map (fun n => (n : Int))
  | cs => (decNat? cs).map (fun n => (n : Int))

/-- Lines 141/146 of the source: split a comma-separated string, strip
each token, and drop tokens that are empty after stripping
(`[s.strip() for s in csv.split(",") if s.strip()]`). -/
def splitCsv (s : String) : List String :=
  ((pySplitComma s).map pyStrip).filter (fun t => t != "")

/-- `_env` (line 57): `os.getenv(key, default)` — the environment value
when the variable is set (even to the empty string), else the default. -/
def envGet (env : String → Option String) (key default : String) : String :=
  (env key).getD default

/-- The truthy tokens of `_env_bool` (line 74). -/
def truthTokens : List String := ["1", "true", "yes", "y"]

/-- Membership test of `_env_bool`: `str(raw).strip().lower() in {"1", "true", "yes", "y"}`. -/
def pyBoolToken (r : String) : Bool := truthTokens.contains (pyLower (pyStrip r))

/-- `_env_bool` (lines 70-74): the default when the variable is unset,
otherwise whether the stripped, lower-cased value is a truthy token. -/
def _env_bool (raw : Option String) (default : Bool) : Bool :=
  match raw with
  | none => default
  | some r => pyBoolToken r

/-- The parsed `argparse` namespace (lines 76-88).  `none` = flag not
passed; the two `store_true` flags default to `false`. -/
structure Flags where
  site : Option String
  terms : Option String
  google_term : Option String
  location : Option String
  results : Option Int
  hours_old : Option Int
  country_indeed : Option String
  linkedin_fetch_description : Bool
  no_linkedin_fetch_description : Bool
  data_dir : Option String
  deriving DecidableEq

/-- An invocation with no flags passed. -/
def noFlags : Flags :=
  { site := none, terms := none, google_term := none, location := none,
    results := none, hours_old := none, country_indeed := none,
    linkedin_fetch_description := false, no_linkedin_fetch_description := false,
    data_dir := none }

/-- An environment with exactly one variable set. -/
def envOf (key val : String) : String → Option String :=
  fun k => if k = key then some val else none

/-- Python `flag or fallback` on an optional string flag: `None` and the
empty string are falsy and fall through to the fallback. -/
def pyOrS (flag : Option String) (fallback : String) : String :=
  match flag with
  | none => fallback
  | some s => if s = "" then fallback else s

/-- Python `flag or int(env)` on an optional integer flag: `None` and `0`
are falsy and fall through to the (possibly failing) parse of the
environment tier. -/
def pyOrIntEnv (flag : Option Int) (fallback : Option Int) : Option Int :=
  match flag with
  | some n => if n = 0 then fallback else some n
  | none => fallback

/-- Line 140: `args.site or _env("SITE_NAME", "indeed,linkedin,glassdoor")`. -/
def resolveSiteCsv (a : Flags) (env : String → Option String) : String :=
  pyOrS a.site (envGet env "SITE_NAME" "indeed,linkedin,glassdoor")

/-- Line 141: the resolved site list. -/
def siteList (a : Flags) (env : String → Option String) : List String :=
  splitCsv (resolveSiteCsv a env)

/-- Line 145: `args.terms or _env("SEARCH_TERMS", "Azure,devops")`. -/
def resolveTermsCsv (a : Flags) (env : String → Option String) : String :=
  pyOrS a.terms (envGet env "SEARCH_TERMS" "Azure,devops")

/-- Line 146: the resolved search-term list. -/
def termsList (a : Flags) (env : String → Option String) : List String :=
  splitCsv (resolveTermsCsv a env)

/-- Line 154: `args.google_term or _env("GOOGLE_SEARCH_TERM", search_term)`;
the default is the current term, so this is resolved per iteration. -/
def resolveGoogleTerm (a : Flags) (env : String → Option String) (term : String) : String :=
  pyOrS a.google_term (envGet env "GOOGLE_SEARCH_TERM" term)

/-- Line 155: `args.location or _env("LOCATION", "Canada")`. -/
def resolveLocation (a : Flags) (env : String → Option String) : String :=
  pyOrS a.location (envGet env "LOCATION" "Canada")

/-- Line 156: `args.results or int(_env("RESULTS_WANTED", "20"))`;
`none` models the uncaught `ValueError` of a malformed environment value. -/
def resolveResults (a : Flags) (env : String → Option String) : Option Int :=
  pyOrIntEnv a.results (pyInt? (envGet env "RESULTS_WANTED" "20"))

/-- Line 157: `args.hours_old or int(_env("HOURS_OLD", "24"))`. -/
def resolveHoursOld (a : Flags) (env : String → Option String) : Option Int :=
  pyOrIntEnv a.hours_old (pyInt? (envGet env "HOURS_OLD" "24"))

/-- Line 158: `args.country_indeed or _env("COUNTRY_INDEED", "canada")`. -/
def resolveCountryIndeed (a : Flags) (env : String → Option String) : String :=
  pyOrS a.country_indeed (envGet env "COUNTRY_INDEED" "canada")

/-- Line 166: `args.data_dir or _env("DATA_DIR", "/DATA")`. -/
def resolveDataDir (a : Flags) (env : String → Option String) : String :=
  pyOrS a.data_dir (envGet env "DATA_DIR" "/DATA")

/-- Lines 161-165: the resolved `linkedin_fetch_description` —
disable flag wins, then enable flag, then the environment boolean with
default `True`. -/
def resolveLinkedin (a : Flags) (env : String → Option String) : Bool :=
  if a.no_linkedin_fetch_description then false
  else if a.linkedin_fetch_description then true
  else _env_bool (env "LINKEDIN_FETCH_DESCRIPTION") true

/-- Lines 159-160: the conflict warning is printed to stderr exactly when
both linkedin flags are set. -/
def linkedinWarning (a : Flags) : Bool :=
  a.linkedin_fetch_description && a.no_linkedin_fetch_description

/-- The fixed output file name (lines 62, 168). -/
def outputFileName : String := "flat_jobs_list.csv"

/-- Whether a path's last character is the separator, for `os.path.join`. -/
def endsWithSlash (d : String) : Bool :=
  match d.data.getLast? with
  | some '/' => true
  | _ => false

/-- POSIX `os.path.join(d, f)` for a relative second component. -/
def joinPath (d f : String) : String :=
  if d = "" then f else if endsWithSlash d then d ++ f else d ++ "/" ++ f

/-- Python exceptions the embedded control flow distinguishes. -/
inductive PyErr where
  | keyError
  deriving DecidableEq

deriving instance DecidableEq for Except

/-- Lines 152-186, the aggregation loop: for each term in order, call the
provider; on success append the batch to the accumulated rows (`pd.concat`
keeps accumulated-then-batch order) and add its length to the running
count (`totaljobcount += len(jobs)`); on the first provider exception, the
loop is abandoned (`return 2`), carrying the failing term and cause. -/
def runLoop {ρ ε : Type} (provider : String → Except ε (List ρ)) :
    List String → List ρ → ℕ → Except (String × ε) (List ρ × ℕ)
  | [], acc, n => .ok (acc, n)
  | t :: ts, acc, n =>
    match provider t with
    | .error e => .error (t, e)
    | .ok batch => runLoop provider ts (acc ++ batch) (n + batch.length)

/-- The terms for which the loop actually invokes the provider: every term
up to and including the first failing one. -/
def providerCalls {ρ ε : Type} (provider : String → Except ε (List ρ)) :
    List String → List String
  | [] => []
  | t :: ts =>
    match provider t with
    | .error _ => [t]
    | .ok _ => t :: providerCalls provider ts

/-- The observable outcome of one run of `main` (lines 90-197):
the returned exit code, the dataset written to the output file by this run
(`none` when no file is written), the total row count reported by the
`Found N jobs` summary (`none` when the run aborts before it), and the
terms for which the provider was invoked. -/
structure RunOutcome (ρ : Type) where
  exitCode : ℕ
  written : Option (List ρ)
  reportedTotal : Option ℕ
  calls : List String
  deriving DecidableEq

/-- The loop plus the write step (lines 149-197), for an already-resolved
term list.  `out_csv` is assigned only inside the `for` body (line 168),
so it is bound exactly when the term list is non-empty; with zero terms
the `to_csv` call raises `NameError` on `out_csv`, which the
`except Exception` write handler catches, so the run returns 3 with no
file written.  `writeOk` says whether the `to_csv` call itself succeeds
when the path is bound. -/
def mainRun {ρ ε : Type} (provider : String → Except ε (List ρ))
    (terms : List String) (writeOk : Bool) : RunOutcome ρ :=
  match runLoop provider terms [] 0 with
  | .error _ =>
    { exitCode := 2, written := none, reportedTotal := none,
      calls := providerCalls provider terms }
  | .ok (rows, n) =>
    if terms.isEmpty then
      { exitCode := 3, written := none, reportedTotal := some n,
        calls := providerCalls provider terms }
    else if writeOk then
      { exitCode := 0, written := some rows, reportedTotal := some n,
        calls := providerCalls provider terms }
    else
      { exitCode := 3, written := none, reportedTotal := some n,
        calls := providerCalls provider terms }

/-- `main` (lines 90-197): resolve the term list from flags/environment,
then run the loop and the write step. -/
def main {ρ ε : Type} (provider : String → Except ε (List ρ))
    (a : Flags) (env : String → Option String) (writeOk : Bool) : RunOutcome ρ :=
  mainRun provider (termsList a env) writeOk

/-- Lines 61-65, the module-level pre-flight guard: look up
`os.environ["DATA_DIR"]` — a `KeyError` if the variable is unset — and
report whether `flat_jobs_list.csv` exists in that directory. -/
def preflight (env : String → Option String) (fileExists : String → Bool) :
    Except PyErr Bool :=
  match env "DATA_DIR" with
  | none => .error .keyError
  | some d => .ok (fileExists (joinPath d outputFileName))

/-- The whole process (module load then `main`, lines 56-200): the guard
runs first; if it raises, the interpreter dies with the exception; if the
output file exists, the process exits 0 having called nothing else;
otherwise `main` runs and its return value is the exit code. -/
def program {ρ ε : Type} (env : String → Option String)
    (fileExists : String → Bool) (a : Flags)
    (provider : String → Except ε (List ρ)) (writeOk : Bool) :
    Except PyErr (RunOutcome ρ) :=
  match preflight env fileExists with
  | .error e => .error e
  | .ok true =>
    .ok { exitCode := 0, written := none, reportedTotal := none, calls := [] }
  | .ok false => .ok (main provider a env writeOk)

/-- The `csv` module quoting policies named by the source. -/
inductive QuotingPolicy where
  | quoteAll
  | quoteMinimal
  | quoteNonnumeric
  | quoteNone
  deriving DecidableEq

/-- A CSV field as the quoting policy distinguishes them: numeric or not. -/
inductive CsvField where
  | num (x : Int)
  | str (s : String)
  deriving DecidableEq

/-- Whether a field is numeric. -/
def CsvField.isNumeric : CsvField → Bool
  | .num _ => true
  | .str _ => false

/-- Modelled from the spec: which fields each quoting policy quotes — the
serialization library (`pandas`/`csv`) is an external collaborator whose
quote-non-numeric contract the spec describes: quote exactly the
non-numeric fields. -/
def quotesField : QuotingPolicy → CsvField → Bool
  | .quoteAll, _ => true
  | .quoteNone, _ => false
  | .quoteNonnumeric, f => !f.isNumeric
  | .quoteMinimal, .num _ => false
  | .quoteMinimal, .str s => s.data.any (fun c => c = ',' || c = '"' || c = '\n')

/-- The keyword arguments of a `DataFrame.to_csv` call. -/
structure ToCsvCall where
  path : String
  sep : String
  quoting : QuotingPolicy
  escapechar : Option Char
  index : Bool
  header : Bool
  encoding : String
  deriving DecidableEq

/-- Line 191, the writer invocation
`jobcollected.to_csv(out_csv, quoting=csv.QUOTE_NONNUMERIC,
escapechar="\\", index=False, encoding='utf-8-sig')` with
`out_csv = os.path.join(data_dir, "flat_jobs_list.csv")` (line 168);
`sep=","` and `header=True` are the pandas defaults for the arguments the
call leaves unspecified, and the `utf-8-sig` codec is UTF-8 with a
byte-order mark. -/
def writerCall (data_dir : String) : ToCsvCall :=
  { path := joinPath data_dir outputFileName, sep := ",",
    quoting := .quoteNonnumeric, escapechar := some '\\', index := false,
    header := true, encoding := "utf-8-sig" }

end Collector

namespace Collector

/-! ### Loop lemmas -/

theorem runLoop_ok_of_all {ρ ε : Type} (provider : String → Except ε (List ρ))
    (b : String → List ρ) :
    ∀ (terms : List String) (acc : List ρ) (n : ℕ),
      (∀ t ∈ terms, provider t = Except.ok (b t)) →
      runLoop provider terms acc n =
        Except.ok (acc ++ terms.flatMap b, n + (terms.map fun t => (b t).length).sum) := by
  intro terms
  induction terms with
  | nil => intro acc n _; simp [runLoop]
  | cons t ts ih =>
    intro acc n h
    have ht : provider t = Except.ok (b t) := h t (List.mem_cons_self t ts)
    have hts : ∀ s ∈ ts, provider s = Except.ok (b s) :=
      fun s hs => h s (List.mem_cons_of_mem t hs)
    simp [runLoop, ht, ih (acc ++ b t) (n + (b t).length) hts, Nat.add_assoc]

theorem providerCalls_ok_of_all {ρ ε : Type} (provider : String → Except ε (List ρ)) :
    ∀ terms : List String,
      (∀ t ∈ terms, ∃ bb, provider t = Except.ok bb) →
      providerCalls provider terms = terms := by
  intro terms
  induction terms with
  | nil => intro _; rfl
  | cons t ts ih =>
    intro h
    obtain ⟨bb, hbb⟩ := h t (List.mem_cons_self t ts)
    have hts := fun s hs => h s (List.mem_cons_of_mem t hs)
    simp [providerCalls, hbb, ih hts]

theorem runLoop_err_at {ρ ε : Type} (provider : String → Except ε (List ρ))
    (t : String) (e : ε) (post : List String) :
    ∀ (pre : List String) (acc : List ρ) (n : ℕ),
      (∀ s ∈ pre, ∃ bb, provider s = Except.ok bb) →
      provider t = Except.error e →
      runLoop provider (pre ++ t :: post) acc n = Except.error (t, e) := by
  intro pre
  induction pre with
  | nil => intro acc n _ he; simp [runLoop, he]
  | cons s ss ih =>
    intro acc n h he
    obtain ⟨bb, hbb⟩ := h s (List.mem_cons_self s ss)
    have hss := fun u hu => h u (List.mem_cons_of_mem s hu)
    simp [runLoop, hbb, ih (acc ++ bb) (n + bb.length) hss he]

theorem providerCalls_err_at {ρ ε : Type} (provider : String → Except ε (List ρ))
    (t : String) (e : ε) (post : List String) :
    ∀ pre : List String,
      (∀ s ∈ pre, ∃ bb, provider s = Except.ok bb) →
      provider t = Except.error e →
      providerCalls provider (pre ++ t :: post) = pre ++ [t] := by
  intro pre
  induction pre with
  | nil => intro _ he; simp [providerCalls, he]
  | cons s ss ih =>
    intro h he
    obtain ⟨bb, hbb⟩ := h s (List.mem_cons_self s ss)
    have hss := fun u hu => h u (List.mem_cons_of_mem s hu)
    simp [providerCalls, hbb, ih hss he]

end Collector
namespace Collector

/-! ### Claims C1 and C2: the aggregation loop -/

/-- Claim C1: for every sequence of resolved search terms, if the provider
call raises an error for some term, the process immediately stops without
invoking the provider for any remaining term, writes no output file
(rows already fetched for earlier terms are discarded), and exits with
code 2. -/
theorem C1_fail_fast {ρ ε : Type} (provider : String → Except ε (List ρ))
    (pre post : List String) (t : String) (writeOk : Bool)
    (hpre : ∀ s ∈ pre, ∃ bb, provider s = Except.ok bb)
    (hfail : ∃ e, provider t = Except.error e) :
    mainRun provider (pre ++ t :: post) writeOk =
      { exitCode := 2, written := none, reportedTotal := none,
        calls := pre ++ [t] } := by
  obtain ⟨e, he⟩ := hfail
  have h1 := runLoop_err_at provider t e post pre [] 0 hpre he
  have h2 := providerCalls_err_at provider t e post pre hpre he
  simp [mainRun, h1, h2]

/-- A provider that succeeds on `"a"` with three rows and fails on every
other term. -/
def failAfterA : String → Except Unit (List ℕ) :=
  fun t => if t = "a" then Except.ok [1, 2, 3] else Except.error ()

/-- Concrete instance of C1: the provider fails on the second of three
terms, so the provider is invoked only on the first two, no file is
written, the three rows fetched for the first term are dropped, and the
exit code is 2. -/
theorem C1_fail_fast_witness :
    mainRun failAfterA ["a", "b", "c"] true =
      { exitCode := 2, written := none, reportedTotal := none,
        calls := ["a", "b"] } :=
  C1_fail_fast failAfterA ["a"] ["c"] "b" true
    (by intro s hs; simp only [List.mem_singleton] at hs; subst hs; exact ⟨[1, 2, 3], rfl⟩)
    ⟨(), rfl⟩

/-- Claim C2: when all provider calls succeed, the aggregated dataset is
the ordered concatenation of the per-term batches (terms in processing
order, rows in within-batch order), and the reported total row count
equals the sum of the batch lengths, which equals the length of the
aggregated dataset. -/
theorem C2_aggregation {ρ ε : Type} (provider : String → Except ε (List ρ))
    (terms : List String) (b : String → List ρ) (writeOk : Bool)
    (h : ∀ t ∈ terms, provider t = Except.ok (b t)) :
    runLoop provider terms [] 0 =
      Except.ok (terms.flatMap b, (terms.map fun t => (b t).length).sum) ∧
    (terms.map fun t => (b t).length).sum = (terms.flatMap b).length ∧
    (mainRun provider terms writeOk).reportedTotal =
      some ((terms.map fun t => (b t).length).sum) := by
  have h1 := runLoop_ok_of_all provider b terms [] 0 h
  simp only [List.nil_append, Nat.zero_add] at h1
  refine ⟨h1, ?_, ?_⟩
  · simp [List.length_flatMap, Function.comp_def]
  · simp only [mainRun, h1]
    rcases terms.isEmpty with _ | _ <;> cases writeOk <;> simp

end Collector
namespace Collector

/-- Per-term batches: three rows for `"a"`, five rows for anything else. -/
def batchesAB : String → List ℕ :=
  fun t => if t = "a" then [10, 11, 12] else [20, 21, 22, 23, 24]

/-- A provider that always succeeds with `batchesAB`. -/
def okProvider : String → Except Unit (List ℕ) :=
  fun t => Except.ok (batchesAB t)

/-- Concrete instance of C2: for terms `["a", "b"]` with batches of 3 and
5 rows, the combined dataset has 8 rows in a-then-b order and the
reported total is 8. -/
theorem C2_aggregation_witness :
    runLoop okProvider ["a", "b"] [] 0 =
      Except.ok ([10, 11, 12, 20, 21, 22, 23, 24], 8) ∧
    (mainRun okProvider ["a", "b"] true).reportedTotal = some 8 := by
  obtain ⟨h1, h2, h3⟩ :=
    C2_aggregation okProvider ["a", "b"] batchesAB true (by intro t ht; rfl)
  refine ⟨?_, ?_⟩
  · rw [h1]; rfl
  · rw [h3]; rfl

/-! ### Claim C6: zero resolved search terms -/

/-- Flags whose `--terms` value resolves to the empty term list. -/
def flagsEmptyTerms : Flags := { noFlags with terms := some ",," }

/-- Claim C6 (settled against the code): with zero resolved search terms
the loop body never runs, so the provider is never invoked — but `out_csv`
is assigned only inside the loop body (line 168), so the write step's
`to_csv(out_csv, ...)` raises `NameError`, which the write handler
catches: the reported total is 0, no output file is written, and the exit
code is 3, not the claimed 0-with-header-only-file.  Evaluated here on the
full program with `DATA_DIR=/DATA`, no pre-existing file, `--terms ",,"`,
and a provider/write step that would succeed if reached. -/
theorem C6_empty_terms_exit3 :
    program (envOf "DATA_DIR" "/DATA") (fun _ => false) flagsEmptyTerms
        (fun _ => (Except.ok [0] : Except Unit (List ℕ))) true =
      Except.ok { exitCode := 3, written := none, reportedTotal := some 0,
                  calls := [] } := by
  decide

/-! ### Claim C7: comma splitting -/

/-- Claim C7: resolving the search-term (and site) list splits the
comma-separated string on commas, trims whitespace from each token, drops
empty tokens, and preserves the order of the remaining tokens; in
particular `"Azure, devops ,, "` resolves to `["Azure", "devops"]`.
Order preservation is the sublist relation against the split-and-trimmed
token sequence; both the term list (line 146) and the site list
(line 141) are computed by this very `splitCsv`. -/
theorem C7_splitting :
    splitCsv "Azure, devops ,, " = ["Azure", "devops"] ∧
    (∀ s : String, (splitCsv s).Sublist ((pySplitComma s).map pyStrip)) ∧
    (∀ s : String, (splitCsv s).all (fun t => t != "")) ∧
    (∀ (a : Flags) (env : String → Option String),
      termsList a env = splitCsv (resolveTermsCsv a env) ∧
      siteList a env = splitCsv (resolveSiteCsv a env)) := by
  refine ⟨by decide, ?_, ?_, fun a env => ⟨rfl, rfl⟩⟩
  · intro s; exact List.filter_sublist _
  · intro s
    exact List.all_eq_true.mpr (fun t ht => (List.mem_filter.mp ht).2)

/-! ### Claim C8: the writer contract -/

/-- Claim C8: the output writer serializes the aggregated dataset to
`<outputDir>/flat_jobs_list.csv` as comma-delimited text quoting exactly
the non-numeric fields (`QUOTE_NONNUMERIC`), with backslash as the escape
character, no row-index column, a leading header row, and the `utf-8-sig`
encoding (UTF-8 with a byte-order mark). -/
theorem C8_writer_contract (d : String) (f : CsvField) :
    (writerCall d).path = joinPath d outputFileName ∧
    (writerCall d).sep = "," ∧
    (writerCall d).quoting = QuotingPolicy.quoteNonnumeric ∧
    quotesField (writerCall d).quoting f = !f.isNumeric ∧
    (writerCall d).escapechar = some '\\' ∧
    (writerCall d).index = false ∧
    (writerCall d).header = true ∧
    (writerCall d).encoding = "utf-8-sig" := by
  refine ⟨rfl, rfl, rfl, ?_, rfl, rfl, rfl, rfl⟩
  cases f <;> rfl

end Collector
namespace Collector

/-! ### Claims C3 and C10: the pre-flight guard -/

/-- Counterexample to claim C3 as stated: the output file exists under the
default output directory `/DATA` (here `fileExists` is true on every
path), but `DATA_DIR` is unset, so instead of the claimed
informational-message-and-exit-0 skip the process dies on the guard's
`os.environ["DATA_DIR"]` lookup with an unhandled `KeyError`. -/
theorem C3_counterexample :
    program (fun _ => none) (fun _ => true) noFlags
        (fun _ => (Except.ok [0] : Except Unit (List ℕ))) true =
      Except.error PyErr.keyError ∧
    (Except.error PyErr.keyError : Except PyErr (RunOutcome ℕ)) ≠
      Except.ok { exitCode := 0, written := none, reportedTotal := none,
                  calls := [] } := by
  decide

/-- Claim C3 as amended: if the `DATA_DIR` environment variable is set to
`d` and `flat_jobs_list.csv` already exists under `d` when the program
starts, the process performs zero provider calls, emits its message, and
exits with code 0 — for every provider, flag set, and write behaviour. -/
theorem C3_skip_when_env_file_exists {ρ ε : Type}
    (provider : String → Except ε (List ρ)) (env : String → Option String)
    (fileExists : String → Bool) (a : Flags) (writeOk : Bool) (d : String)
    (h1 : env "DATA_DIR" = some d)
    (h2 : fileExists (joinPath d outputFileName) = true) :
    program env fileExists a provider writeOk =
      Except.ok { exitCode := 0, written := none, reportedTotal := none,
                  calls := [] } := by
  simp [program, preflight, h1, h2]

/-- Concrete instance of the amended C3: `DATA_DIR=/DATA`, the file
exists exactly at `/DATA/flat_jobs_list.csv`, and the provider would fail
if it were ever called — the run still exits 0 with zero provider calls. -/
theorem C3_skip_witness :
    program (envOf "DATA_DIR" "/DATA")
        (fun p => p = "/DATA/flat_jobs_list.csv") noFlags
        (fun _ => (Except.error () : Except Unit (List ℕ))) true =
      Except.ok { exitCode := 0, written := none, reportedTotal := none,
                  calls := [] } :=
  C3_skip_when_env_file_exists (fun _ => (Except.error () : Except Unit (List ℕ)))
    (envOf "DATA_DIR" "/DATA") (fun p => p = "/DATA/flat_jobs_list.csv")
    noFlags true "/DATA" (by decide) (by decide)

/-- Claim C10: the pre-flight existence check consults only the
`DATA_DIR` environment variable.  First conjunct: when `DATA_DIR` is
unset the process terminates with the unhandled `KeyError` — whatever
files exist, whatever flags were passed, and before any provider call.
Second conjunct: when `DATA_DIR` is set to `d` and the file is absent
from `d`, the run proceeds to the full `main` even though `--data-dir`
names a different directory `d2` in which the output file does exist. -/
theorem C10_guard_env_only {ρ ε : Type} (provider : String → Except ε (List ρ))
    (env1 env2 : String → Option String) (fileExists : String → Bool)
    (a : Flags) (writeOk : Bool) (d d2 : String)
    (h1 : env1 "DATA_DIR" = none)
    (h2 : env2 "DATA_DIR" = some d)
    (h3 : fileExists (joinPath d outputFileName) = false)
    (h4 : a.data_dir = some d2)
    (h5 : fileExists (joinPath d2 outputFileName) = true) :
    program env1 fileExists a provider writeOk = Except.error PyErr.keyError ∧
    program env2 fileExists a provider writeOk =
      Except.ok (main provider a env2 writeOk) := by
  constructor
  · simp [program, preflight, h1]
  · simp [program, preflight, h2, h3]

/-- Flags passing `--data-dir /FLAG`. -/
def flagsFlagDir : Flags := { noFlags with data_dir := some "/FLAG" }

/-- Concrete instance of C10: the output file exists exactly at
`/FLAG/flat_jobs_list.csv`, the directory named by `--data-dir`; with
`DATA_DIR` unset the program dies with `KeyError`, and with
`DATA_DIR=/ENVDIR` (no file there) the skip is not triggered and the full
run proceeds. -/
theorem C10_guard_env_only_witness :
    program (fun _ => none) (fun p => p = "/FLAG/flat_jobs_list.csv")
        flagsFlagDir okProvider true = Except.error PyErr.keyError ∧
    program (envOf "DATA_DIR" "/ENVDIR") (fun p => p = "/FLAG/flat_jobs_list.csv")
        flagsFlagDir okProvider true =
      Except.ok (main okProvider flagsFlagDir (envOf "DATA_DIR" "/ENVDIR") true) :=
  C10_guard_env_only okProvider (fun _ => none) (envOf "DATA_DIR" "/ENVDIR")
    (fun p => p = "/FLAG/flat_jobs_list.csv") flagsFlagDir true "/ENVDIR" "/FLAG"
    rfl (by decide) (by decide) rfl (by decide)

end Collector
namespace Collector

/-! ### Claim C4: linkedinFetchDescription resolution -/

/-- Claim C4's resolution rule, following the claim's words (a comparison
definition, not source code): both flags set gives false; disable-only
gives false; enable-only gives true; otherwise the environment token is
parsed case-insensitively, truthy tokens give true, and any other token —
or absence of the variable — gives the provided default. -/
def C4_claimedResolve (enable disable : Bool) (envRaw : Option String)
    (default : Bool) : Bool :=
  if enable && disable then false
  else if disable then false
  else if enable then true
  else
    match envRaw with
    | none => default
    | some r => if pyBoolToken r then true else default

/-- Counterexample to claim C4 as stated: with neither flag set and
`LINKEDIN_FETCH_DESCRIPTION=no`, the claim says the non-truthy token
falls back to the provided default `true`, but `_env_bool` (line 74)
returns the membership test itself, so the code resolves `false`. -/
theorem C4_counterexample :
    resolveLinkedin noFlags (envOf "LINKEDIN_FETCH_DESCRIPTION" "no") = false ∧
    C4_claimedResolve false false (some "no") true = true ∧
    resolveLinkedin noFlags (envOf "LINKEDIN_FETCH_DESCRIPTION" "no") ≠
      C4_claimedResolve false false (some "no") true := by
  decide

/-- Flags with both linkedin flags set. -/
def flagsBothLinkedin : Flags :=
  { noFlags with linkedin_fetch_description := true,
                 no_linkedin_fetch_description := true }

/-- Flags with only the disable flag set. -/
def flagsDisableLinkedin : Flags :=
  { noFlags with no_linkedin_fetch_description := true }

/-- Flags with only the enable flag set. -/
def flagsEnableLinkedin : Flags :=
  { noFlags with linkedin_fetch_description := true }

/-- Claim C4 as amended: the resolved value is false (with a warning on
the error stream) when both flags are set; false when only the disable
flag is set; true when only the enable flag is set; otherwise the
environment variable is parsed case-insensitively after stripping, where
the tokens 1, true, yes, y yield true and ANY OTHER TOKEN YIELDS FALSE,
while absence of the variable yields the provided default true. -/
theorem C4_linkedin_resolution (env : String → Option String) (r : String) :
    (resolveLinkedin flagsBothLinkedin env = false ∧
      linkedinWarning flagsBothLinkedin = true) ∧
    resolveLinkedin flagsDisableLinkedin env = false ∧
    resolveLinkedin flagsEnableLinkedin env = true ∧
    linkedinWarning flagsDisableLinkedin = false ∧
    linkedinWarning flagsEnableLinkedin = false ∧
    resolveLinkedin noFlags (fun _ => none) = true ∧
    resolveLinkedin noFlags (envOf "LINKEDIN_FETCH_DESCRIPTION" r) =
      pyBoolToken r ∧
    pyBoolToken "  TRUE " = true ∧ pyBoolToken "Y" = true ∧
    pyBoolToken "1" = true ∧ pyBoolToken "yes" = true ∧
    pyBoolToken "no" = false ∧ pyBoolToken "0" = false ∧
    pyBoolToken "false" = false := by
  refine ⟨⟨rfl, rfl⟩, rfl, rfl, rfl, rfl, rfl, ?_, by decide, by decide,
    by decide, by decide, by decide, by decide, by decide⟩
  rfl

end Collector
namespace Collector

/-! ### Claims C5 and C9: configuration precedence -/

/-- Claim C5's resolution rule for the integer fields, following the
claim's words (a comparison definition, not source code): the explicit
flag value if the flag was passed — whatever it is — else the environment
value if set, else the built-in default. -/
def C5_claimedInt (flag : Option Int) (envVal : Option Int) (default : Int) : Int :=
  flag.getD (envVal.getD default)

/-- Counterexample to claim C5 as stated: with `--results 0`,
`RESULTS_WANTED=50` and built-in default 20, the claim's strict
flag-over-environment precedence resolves 0, but the source's
`args.results or int(_env(...))` treats the explicit 0 as falsy and
resolves 50 from the environment tier. -/
theorem C5_counterexample :
    C5_claimedInt (some 0) (some 50) 20 = 0 ∧
    resolveResults { noFlags with results := some 0 }
      (envOf "RESULTS_WANTED" "50") = some 50 ∧
    resolveResults { noFlags with results := some 0 }
      (envOf "RESULTS_WANTED" "50") ≠
      some (C5_claimedInt (some 0) (some 50) 20) := by
  decide

/-- The amended three-tier rule for string-valued fields: a flag passed
with a non-empty value wins; an empty (falsy) flag value is treated as
absent; then the environment value if the variable is set (even to the
empty string); else the built-in default. -/
def amendedTierStr (flag envVal : Option String) (default : String) : String :=
  match flag with
  | some s => if s = "" then envVal.getD default else s
  | none => envVal.getD default

/-- The amended three-tier rule for the integer fields: a flag passed
with a non-zero value wins; an explicit zero (falsy) is treated as
absent; then the integer parse of the environment value if set, else of
the built-in default (`none` = the parse raises `ValueError`). -/
def amendedTierInt (flag : Option Int) (envVal : Option String)
    (default : String) : Option Int :=
  match flag with
  | some n => if n = 0 then pyInt? (envVal.getD default) else some n
  | none => pyInt? (envVal.getD default)

theorem pyOrS_eq_amendedTier (flag envVal : Option String) (d : String) :
    pyOrS flag (envVal.getD d) = amendedTierStr flag envVal d := by
  cases flag <;> rfl

theorem pyOrIntEnv_eq_amendedTier (flag : Option Int) (envVal : Option String)
    (d : String) :
    pyOrIntEnv flag (pyInt? (envVal.getD d)) = amendedTierInt flag envVal d := by
  cases flag <;> rfl

/-- Claim C5 as amended: for every configuration field the resolved value
follows the flag > environment > default chain with the documented
defaults (sites `indeed,linkedin,glassdoor`, location `Canada`,
resultsWanted 20, hoursOld 24, countryIndeed `canada`, outputDir `/DATA`),
except that a falsy explicit flag value — the empty string for the string
fields, zero for the integer fields — is treated as absent and resolution
falls through to the environment tier.  The final conjuncts check the
built-in defaults with no flag and an empty environment. -/
theorem C5_precedence (a : Flags) (env : String → Option String) :
    resolveSiteCsv a env =
      amendedTierStr a.site (env "SITE_NAME") "indeed,linkedin,glassdoor" ∧
    resolveTermsCsv a env =
      amendedTierStr a.terms (env "SEARCH_TERMS") "Azure,devops" ∧
    resolveLocation a env = amendedTierStr a.location (env "LOCATION") "Canada" ∧
    resolveCountryIndeed a env =
      amendedTierStr a.country_indeed (env "COUNTRY_INDEED") "canada" ∧
    resolveDataDir a env = amendedTierStr a.data_dir (env "DATA_DIR") "/DATA" ∧
    resolveResults a env = amendedTierInt a.results (env "RESULTS_WANTED") "20" ∧
    resolveHoursOld a env = amendedTierInt a.hours_old (env "HOURS_OLD") "24" ∧
    resolveSiteCsv noFlags (fun _ => none) = "indeed,linkedin,glassdoor" ∧
    resolveLocation noFlags (fun _ => none) = "Canada" ∧
    resolveCountryIndeed noFlags (fun _ => none) = "canada" ∧
    resolveDataDir noFlags (fun _ => none) = "/DATA" ∧
    resolveResults noFlags (fun _ => none) = some 20 ∧
    resolveHoursOld noFlags (fun _ => none) = some 24 :=
  ⟨pyOrS_eq_amendedTier a.site (env "SITE_NAME") "indeed,linkedin,glassdoor",
   pyOrS_eq_amendedTier a.terms (env "SEARCH_TERMS") "Azure,devops",
   pyOrS_eq_amendedTier a.location (env "LOCATION") "Canada",
   pyOrS_eq_amendedTier a.country_indeed (env "COUNTRY_INDEED") "canada",
   pyOrS_eq_amendedTier a.data_dir (env "DATA_DIR") "/DATA",
   pyOrIntEnv_eq_amendedTier a.results (env "RESULTS_WANTED") "20",
   pyOrIntEnv_eq_amendedTier a.hours_old (env "HOURS_OLD") "24",
   by decide, by decide, by decide, by decide, by decide, by decide⟩

/-- Claim C9: passing 0 for `--results` or `--hours-old` is treated as if
the flag were not provided — resolution falls through to the environment
variable (here `RESULTS_WANTED=50`, `HOURS_OLD=6`) or, with an empty
environment, to the built-in defaults 20 and 24 — instead of using the
explicit zero. -/
theorem C9_zero_flag_fallthrough (a : Flags) (env : String → Option String) :
    resolveResults { a with results := some 0 } env =
      resolveResults { a with results := none } env ∧
    resolveHoursOld { a with hours_old := some 0 } env =
      resolveHoursOld { a with hours_old := none } env ∧
    resolveResults { a with results := some 0 } (envOf "RESULTS_WANTED" "50") =
      some 50 ∧
    resolveHoursOld { a with hours_old := some 0 } (envOf "HOURS_OLD" "6") =
      some 6 ∧
    resolveResults { a with results := some 0 } (fun _ => none) = some 20 ∧
    resolveHoursOld { a with hours_old := some 0 } (fun _ => none) = some 24 := by
  refine ⟨rfl, rfl, rfl, rfl, rfl, rfl⟩

end Collector
